import Mathlib

/-!
Shallow embedding of the gpt-pilot core excerpt:
  core/cli/main.py        (run_project, run_pythagora_session, start_new_project)
  core/agents/code_monkey.py  (CodeMonkey: implement_changes, describe_files)
  core/agents/architect.py    (Architect: run, plan_architecture,
                               prepare_example_project, check_compatibility,
                               check_system_dependencies)

External collaborators (the LLM, the UI, the process manager, load_project and
the persistence layer) are modelled as oracle parameters; observable side
effects (model calls, executed commands, messages, blocking prompts) are
recorded in explicit event traces.
-/

/-- Python truthiness of an optional string: None and the empty string are
falsy, any other string is truthy. -/
def truthyStr : Option String → Bool
  | none => false
  | some s => s ≠ ""

/-- Python truthiness of an optional integer: None and 0 are falsy. -/
def truthyInt : Option Int → Bool
  | none => false
  | some n => n ≠ 0

/- ===== core/cli/main.py ===== -/

/-- Outcome of the `await orca.run()` call as observed by run_project: either a
normal return carrying the success flag, or one of the three exception classes
that run_project catches (KeyboardInterrupt/UIClosedError, APIError, any other
exception). -/
inductive OrcaOutcome where
  | ok (success : Bool)
  | interrupted
  | apiError (msg : String)
  | exn (msg : String)
  deriving DecidableEq, Repr

/-- Modelled from the spec: the State Manager (core/state/state_manager.py is
not part of the excerpt). It owns the committed `current` snapshot and an
optional uncommitted `next` working snapshot. -/
structure SMModel (σ : Type) where
  current : σ
  next : Option σ
  deriving DecidableEq, Repr

/-- Modelled from the spec: `rollback()` discards any uncommitted working
snapshot and restores current to the last committed checkpoint; the committed
snapshot itself is untouched. -/
def SMModel.rollback {σ : Type} (sm : SMModel σ) : SMModel σ :=
  { sm with next := none }

/-- Result of run_project: the returned boolean, the state manager after the
run, and how many times sm.rollback() was invoked. -/
structure RunProjectOut (σ : Type) where
  result : Bool
  sm : SMModel σ
  rollbacks : Nat
  deriving DecidableEq, Repr

/-- run_project from core/cli/main.py: returns the orchestrator's success flag
on a normal return; on user interruption, an LLM API error or any other
uncaught exception it calls sm.rollback() once and returns False. -/
def run_project {σ : Type} (sm : SMModel σ) (orca : OrcaOutcome) : RunProjectOut σ :=
  match orca with
  | .ok success => { result := success, sm := sm, rollbacks := 0 }
  | .interrupted => { result := false, sm := sm.rollback, rollbacks := 1 }
  | .apiError _ => { result := false, sm := sm.rollback, rollbacks := 1 }
  | .exn _ => { result := false, sm := sm.rollback, rollbacks := 1 }

/-- Calls observable at the run_pythagora_session level. -/
inductive SEvent where
  | apiCheckFailMsg
  | loadProjectCall
  | newProjectCall
  | runProjectCall
  deriving DecidableEq, Repr

/-- The CLI arguments consulted by run_pythagora_session. -/
structure SessionArgs where
  project : Option String
  branch : Option String
  step : Option Int
  deriving DecidableEq, Repr

/-- The condition `args.project or args.branch or args.step` from
run_pythagora_session (Python truthiness on each argument). -/
def SessionArgs.resuming (a : SessionArgs) : Bool :=
  truthyStr a.project || truthyStr a.branch || truthyInt a.step

/-- run_pythagora_session from core/cli/main.py. Oracles: `apiOk` is the result
of llm_api_check, `loadOk` of load_project, `newOk` of start_new_project, and
`runResult` of run_project. Returns the session result and the trace of calls
made. -/
def run_pythagora_session (apiOk loadOk newOk runResult : Bool)
    (args : SessionArgs) : Bool × List SEvent :=
  if !apiOk then (false, [SEvent.apiCheckFailMsg])
  else if args.resuming then
    if loadOk then (runResult, [SEvent.loadProjectCall, SEvent.runProjectCall])
    else (false, [SEvent.loadProjectCall])
  else
    if newOk then (runResult, [SEvent.newProjectCall, SEvent.runProjectCall])
    else (false, [SEvent.newProjectCall])

/- ===== core/agents/code_monkey.py ===== -/

/-- The FileDescription schema parsed from the model's response. -/
structure FileDescription where
  summary : String
  references : List String
  deriving DecidableEq, Repr

/-- File metadata mapping: the two recognized keys are explicit, all other
keys live in `other`. Python's meta.get("description") is falsy exactly when
`description` is none or some "". -/
structure FileMeta where
  description : Option String
  references : List String
  other : List (String × String)
  deriving DecidableEq, Repr

/-- Truthiness of meta.get("description"). -/
def FileMeta.hasDescription (m : FileMeta) : Bool :=
  m.description.getD "" ≠ ""

/-- The dict-merge update in describe_files: sets description and references,
keeps every other key. -/
def FileMeta.withDescription (m : FileMeta) (d : String) (rs : List String) : FileMeta :=
  { m with description := some d, references := rs }

/-- A File Record of the project state snapshot. -/
structure FileRecord where
  path : String
  content : String
  meta : FileMeta
  deriving DecidableEq, Repr

/-- The to_describe dict of describe_files: path to content of every current
file whose metadata lacks a truthy description (paths are unique per the data
model, so association order is irrelevant). -/
def toDescribe : List FileRecord → List (String × String)
  | [] => []
  | f :: rest =>
    if f.meta.hasDescription then toDescribe rest
    else (f.path, f.content) :: toDescribe rest

/-- Agent response tags from core/agents/response.py used by this excerpt. -/
inductive ResponseType where
  | done
  | codeReview
  | describeFiles
  | codeReviewFeedback
  deriving DecidableEq, Repr

/-- One iteration of the describe_files loop for a single next-state file:
skip files not in to_describe, write the sentinel for empty content with no
model call, otherwise call the model once and record the parsed summary and
references. Returns the updated record and the number of model invocations. -/
def describeOne (llm : String → String → FileDescription)
    (td : List (String × String)) (f : FileRecord) : FileRecord × Nat :=
  match td.lookup f.path with
  | none => (f, 0)
  | some content =>
    if content = "" then
      ({ f with meta := f.meta.withDescription "Empty file" [] }, 0)
    else
      let resp := llm f.path content
      ({ f with meta := f.meta.withDescription resp.summary resp.references }, 1)

/-- CodeMonkey.describe_files: collect pending descriptions from the current
snapshot, update metadata on the next snapshot's files, return the updated
files, the total model-call count, and the single done response. -/
def describe_files (llm : String → String → FileDescription)
    (currentFiles nextFiles : List FileRecord) :
    List FileRecord × Nat × ResponseType :=
  let td := toDescribe currentFiles
  let results := nextFiles.map (describeOne llm td)
  (results.map Prod.fst, (results.map Prod.snd).sum, ResponseType.done)

/-- The previous agent response as consumed by CodeMonkey: either code-review
feedback with its payload, a describe-files request, or anything else. -/
inductive PrevResponse where
  | codeReviewFeedback (attempt : Nat) (feedback : String)
      (new_content : String) (approved_content : String)
  | describeFiles
  | other
  deriving DecidableEq, Repr

/-- CodeMonkey.handle_previous_response: on code-review feedback the attempt
counter is the previous attempt plus one and the feedback is carried over;
otherwise the attempt counter is 1 and there is no feedback. -/
def handle_previous_response (prev : Option PrevResponse) : Nat × Option String :=
  match prev with
  | some (.codeReviewFeedback attempt feedback _ _) => (attempt + 1, some feedback)
  | _ => (1, none)

/-- Payload of the code_review response produced by implement_changes. -/
structure CodeReviewOut where
  file_name : String
  instructions : String
  old_content : String
  new_content : String
  attempt : Nat
  deriving DecidableEq, Repr

/-- CodeMonkey.implement_changes: compute the attempt counter from the
previous response, invoke the model (`llmOut` is the oracle for its content),
and return a code_review response carrying the attempt counter. -/
def implement_changes (prev : Option PrevResponse)
    (file_name instructions file_content llmOut : String) : CodeReviewOut :=
  { file_name := file_name, instructions := instructions,
    old_content := file_content, new_content := llmOut,
    attempt := (handle_previous_response prev).1 }

/- ===== core/agents/architect.py ===== -/

def WARN_SYSTEM_DEPS : List String := ["docker", "kubernetes", "microservices"]

def WARN_FRAMEWORKS : List String := ["next.js", "vue", "vue.js", "svelte", "angular"]

def WARN_FRAMEWORKS_URL : String :=
  "https://github.com/Pythagora-io/gpt-pilot/wiki/Using-GPT-Pilot-with-frontend-frameworks"

/-- Python's str.lower() on a dependency name, modelled character-wise
(ASCII case mapping, which covers all dependency names involved): every
character is mapped to its lowercase form. -/
def lower (s : String) : String := String.mk (s.data.map Char.toLower)

/-- The SystemDependency schema returned by the model (no installed field). -/
structure SystemDependency where
  name : String
  description : String
  test : String
  required_locally : Bool
  deriving DecidableEq, Repr

/-- The PackageDependency schema. -/
structure PackageDependency where
  name : String
  description : String
  deriving DecidableEq, Repr

/-- A system-dependency entry as stored in the specification (a dict in
Python); the installed key is absent (none) until check_system_dependencies
sets it. -/
structure SpecSystemDep where
  name : String
  description : String
  test : String
  required_locally : Bool
  installed : Option Bool
  deriving DecidableEq, Repr

/-- model_dump() of a SystemDependency: the four schema fields, no installed
key yet. -/
def SystemDependency.dump (d : SystemDependency) : SpecSystemDep :=
  { name := d.name, description := d.description, test := d.test,
    required_locally := d.required_locally, installed := none }

/-- The Architecture schema returned by the model (template already projected
to its string value). -/
structure Architecture where
  architecture : String
  system_dependencies : List SystemDependency
  package_dependencies : List PackageDependency
  template : Option String
  deriving DecidableEq, Repr

/-- The slice of the Specification record that the Architect reads and
writes. -/
structure Specification where
  example_project : Option String
  architecture : String
  system_dependencies : List SpecSystemDep
  package_dependencies : List PackageDependency
  template : Option String
  deriving DecidableEq, Repr

/-- The architecture entry of one EXAMPLE_PROJECTS bundle (the table itself
lives in core/templates/example_project.py, outside the excerpt, and is passed
to the Architect as a lookup parameter). -/
structure ExampleArch where
  architecture : String
  system_dependencies : List SpecSystemDep
  package_dependencies : List PackageDependency
  template : Option String
  deriving DecidableEq, Repr

/-- Externally observable effects of the Architect agent, in source order. -/
inductive AEvent where
  | projectStage
  | sendMessage (msg : String)
  | llmCall
  | warnPrompt (deps : List String) (dep_type : String) (url : Option String)
  | runCommand (cmd : String)
  | installPrompt (dep_name : String)
  deriving DecidableEq, Repr

/-- The blocking advisory prompt issued by Architect.warn_about_dependencies
for one category of denylisted dependencies. -/
def warn_about_dependencies (deps : List String) (dep_type : String)
    (url : Option String) : AEvent :=
  AEvent.warnPrompt deps dep_type url

/-- Architect.check_compatibility: collect the names of declared dependencies
whose lowercased name is on the denylist, surface one advisory prompt per
non-empty category, and always return True. -/
def check_compatibility (arch : Architecture) : Bool × List AEvent :=
  let warn_system_deps :=
    (arch.system_dependencies.filter
      (fun d => WARN_SYSTEM_DEPS.contains (lower d.name))).map SystemDependency.name
  let warn_package_deps :=
    (arch.package_dependencies.filter
      (fun d => WARN_FRAMEWORKS.contains (lower d.name))).map PackageDependency.name
  let ev1 := if warn_system_deps.isEmpty then []
    else [warn_about_dependencies warn_system_deps "system dependencies" none]
  let ev2 := if warn_package_deps.isEmpty then []
    else [warn_about_dependencies warn_package_deps "frameworks" (some WARN_FRAMEWORKS_URL)]
  (true, ev1 ++ ev2)

/-- Architect.plan_architecture: send a status message, invoke the model once
(`llmArch` is the oracle for the parsed Architecture), run the compatibility
check, and copy the result into the specification. -/
def plan_architecture (llmArch : Architecture) (spec : Specification) :
    Specification × List AEvent :=
  let compat := check_compatibility llmArch
  ({ spec with
      architecture := llmArch.architecture,
      system_dependencies := llmArch.system_dependencies.map SystemDependency.dump,
      package_dependencies := llmArch.package_dependencies,
      template := llmArch.template },
   [AEvent.sendMessage "Planning project architecture ...", AEvent.llmCall] ++ compat.2)

/-- Architect.prepare_example_project: fill the specification purely by
looking the example project up in the predefined bundle table; no events, no
model call. -/
def prepare_example_project (exampleProjects : String → ExampleArch)
    (name : String) (spec : Specification) : Specification :=
  let arch := exampleProjects name
  { spec with
      architecture := arch.architecture,
      system_dependencies := arch.system_dependencies,
      package_dependencies := arch.package_dependencies,
      template := arch.template }

/-- One iteration of the check_system_dependencies loop: run the dependency's
test command, set installed from the exit status, and when the command fails
send a missing-dependency message and a blocking continue prompt; when it
succeeds send an availability message. -/
def checkOneSystemDep (exit_code : String → Int) (dep : SpecSystemDep) :
    SpecSystemDep × List AEvent :=
  let code := exit_code dep.test
  let dep' := { dep with installed := some (code == 0) }
  if code ≠ 0 then
    let remedy := if dep.required_locally then "Please install it before proceeding."
      else "If you would like to use it locally, please install it before proceeding."
    (dep', [AEvent.runCommand dep.test,
            AEvent.sendMessage ("❌ " ++ dep.name ++ " is not available. " ++ remedy),
            AEvent.installPrompt dep.name])
  else
    (dep', [AEvent.runCommand dep.test,
            AEvent.sendMessage ("✅ " ++ dep.name ++ " is available.")])

/-- Architect.check_system_dependencies: probe every declared system
dependency in order, returning the updated entries and the event trace. -/
def check_system_dependencies (exit_code : String → Int) :
    List SpecSystemDep → List SpecSystemDep × List AEvent
  | [] => ([], [])
  | d :: rest =>
    let r := checkOneSystemDep exit_code d
    let rs := check_system_dependencies exit_code rest
    (r.1 :: rs.1, r.2 ++ rs.2)

/-- Result of Architect.run: the specification written to the next state, the
event trace, and the agent response. -/
structure ArchitectOut where
  spec : Specification
  events : List AEvent
  response : ResponseType
  deriving DecidableEq, Repr

/-- Architect.run: send the project stage, fill the architecture either from
the example bundle (truthy spec.example_project) or by planning with the
model, then probe the system dependencies; always returns done. -/
def Architect.run (exampleProjects : String → ExampleArch)
    (llmArch : Architecture) (exit_code : String → Int)
    (spec : Specification) : ArchitectOut :=
  if truthyStr spec.example_project then
    let spec1 := prepare_example_project exampleProjects
      (spec.example_project.getD "") spec
    let checked := check_system_dependencies exit_code spec1.system_dependencies
    { spec := { spec1 with system_dependencies := checked.1 },
      events := AEvent.projectStage :: checked.2,
      response := ResponseType.done }
  else
    let planned := plan_architecture llmArch spec
    let checked := check_system_dependencies exit_code planned.1.system_dependencies
    { spec := { planned.1 with system_dependencies := checked.1 },
      events := AEvent.projectStage :: (planned.2 ++ checked.2),
      response := ResponseType.done }

/- ===== Helper predicates on event traces ===== -/

/-- Is this event a model invocation? -/
def isLlmCall : AEvent → Bool
  | AEvent.llmCall => true
  | _ => false

/-- Number of model invocations recorded in a trace. -/
def llmCalls (evs : List AEvent) : Nat := (evs.filter isLlmCall).length

/-- The command of a runCommand event, if any. -/
def commandOf : AEvent → Option String
  | AEvent.runCommand c => some c
  | _ => none

/-- The dependency name of a missing-dependency blocking prompt, if any. -/
def installPromptOf : AEvent → Option String
  | AEvent.installPrompt n => some n
  | _ => none

/-- Is this event an advisory denylist warning prompt? -/
def isWarnPrompt : AEvent → Bool
  | AEvent.warnPrompt _ _ _ => true
  | _ => false

/-- Is this event the advisory warning for denylisted system dependencies? -/
def isSystemWarn : AEvent → Bool
  | AEvent.warnPrompt _ t _ => t == "system dependencies"
  | _ => false

/-- Is this event the advisory warning for denylisted frameworks? -/
def isFrameworkWarn : AEvent → Bool
  | AEvent.warnPrompt _ t _ => t == "frameworks"
  | _ => false

/- ===== Theorems ===== -/

/-- C1: if the orchestrator's run() ends in a user interruption, an explicit
LLM API error, or any other uncaught exception, run_project calls rollback()
on the State Manager exactly once, returns False, and the committed current
snapshot is unchanged. -/
theorem run_project_failure_rollback {σ : Type} (sm : SMModel σ)
    (orca : OrcaOutcome) (h : ∀ b, orca ≠ OrcaOutcome.ok b) :
    (run_project sm orca).result = false ∧
    (run_project sm orca).rollbacks = 1 ∧
    (run_project sm orca).sm.current = sm.current := by
  cases orca with
  | ok b => exact absurd rfl (h b)
  | interrupted => exact ⟨rfl, rfl, rfl⟩
  | apiError m => exact ⟨rfl, rfl, rfl⟩
  | exn m => exact ⟨rfl, rfl, rfl⟩

/-- Witness for C1 at a concrete interrupted run. -/
theorem run_project_failure_rollback_witness :
    (run_project (SMModel.mk (0 : Nat) none) OrcaOutcome.interrupted).result = false ∧
    (run_project (SMModel.mk (0 : Nat) none) OrcaOutcome.interrupted).rollbacks = 1 ∧
    (run_project (SMModel.mk (0 : Nat) none) OrcaOutcome.interrupted).sm.current =
      (SMModel.mk (0 : Nat) none).current :=
  run_project_failure_rollback (SMModel.mk 0 none) OrcaOutcome.interrupted
    (fun _ hb => OrcaOutcome.noConfusion hb)

/-- C2: the attempt counter of the code-review response produced by
implement_changes equals the previous attempt plus one exactly when the
previous response carries the code_review_feedback tag, and equals 1 for any
other previous response (first draft of a new file included); hence it grows
by exactly one across consecutive feedback rounds and restarts at 1 on a new
file. -/
theorem implement_changes_attempt (prev : Option PrevResponse)
    (fn ins fc out : String) :
    (implement_changes prev fn ins fc out).attempt =
      match prev with
      | some (PrevResponse.codeReviewFeedback a _ _ _) => a + 1
      | _ => 1 := by
  cases prev with
  | none => rfl
  | some p => cases p <;> rfl

/-- C9: when the LLM API check succeeds, the resumption path (load_project) is
taken iff at least one of the project, branch or step arguments is supplied,
the new-project path is taken iff none is, and when the chosen path fails the
session returns False without ever calling run_project. -/
theorem session_dispatch (apiOk loadOk newOk runResult : Bool)
    (args : SessionArgs) (h : apiOk = true) :
    ((SEvent.loadProjectCall ∈
        (run_pythagora_session apiOk loadOk newOk runResult args).2) ↔
      args.resuming = true) ∧
    ((SEvent.newProjectCall ∈
        (run_pythagora_session apiOk loadOk newOk runResult args).2) ↔
      args.resuming = false) ∧
    (((args.resuming = true ∧ loadOk = false) ∨
      (args.resuming = false ∧ newOk = false)) →
      ((run_pythagora_session apiOk loadOk newOk runResult args).1 = false ∧
       SEvent.runProjectCall ∉
         (run_pythagora_session apiOk loadOk newOk runResult args).2)) := by
  subst h
  by_cases hr : args.resuming <;> cases loadOk <;> cases newOk <;>
    simp [run_pythagora_session, hr]

/-- Witness for C9: a session with a project id supplied whose load fails
returns False and never reaches run_project. -/
theorem session_dispatch_witness :
    (run_pythagora_session true false true true
        (SessionArgs.mk (some "p1") none none)).1 = false ∧
    SEvent.runProjectCall ∉
      (run_pythagora_session true false true true
        (SessionArgs.mk (some "p1") none none)).2 :=
  (session_dispatch true false true true (SessionArgs.mk (some "p1") none none)
      rfl).2.2 (Or.inl ⟨by decide, rfl⟩)

/-- Per-file frame property of the describe_files loop body: path and content
of the record are never changed. -/
theorem describeOne_preserves (llm : String → String → FileDescription)
    (td : List (String × String)) (f : FileRecord) :
    ((describeOne llm td f).1.path = f.path) ∧
    ((describeOne llm td f).1.content = f.content) := by
  unfold describeOne
  cases td.lookup f.path with
  | none => exact ⟨rfl, rfl⟩
  | some c => by_cases hc : c = "" <;> simp [hc]

/-- C5: describe_files never mutates any file's content (or path) in the
working snapshot — only metadata is written — and it produces one single done
response for the whole batch of pending files. -/
theorem describe_files_frame (llm : String → String → FileDescription)
    (currentFiles nextFiles : List FileRecord) :
    ((describe_files llm currentFiles nextFiles).1.map
        (fun f => (f.path, f.content)) =
      nextFiles.map (fun f => (f.path, f.content))) ∧
    (describe_files llm currentFiles nextFiles).2.2 = ResponseType.done := by
  refine ⟨?_, rfl⟩
  induction nextFiles with
  | nil => rfl
  | cons f rest ih =>
    have h := describeOne_preserves llm (toDescribe currentFiles) f
    simp only [describe_files, List.map_cons, List.cons.injEq] at *
    exact ⟨by rw [h.1, h.2], ih⟩

/-- Paths absent from the file list are absent from the to_describe map. -/
theorem lookup_toDescribe_not_mem (p : String) :
    ∀ files : List FileRecord, p ∉ files.map FileRecord.path →
      (toDescribe files).lookup p = none := by
  intro files
  induction files with
  | nil => intro _; rfl
  | cons f rest ih =>
    intro h
    simp only [List.map_cons, List.mem_cons, not_or] at h
    unfold toDescribe
    by_cases hd : f.meta.hasDescription
    · simpa [hd] using ih h.2
    · have hne : (p == f.path) = false := by
        simp only [beq_eq_false_iff_ne, ne_eq]
        exact h.1
      simp only [hd, if_false, List.lookup, hne]
      exact ih h.2

/-- Under unique paths, looking a file's own path up in the to_describe map
yields its content exactly when it lacks a description. -/
theorem lookup_toDescribe (files : List FileRecord)
    (h : (files.map FileRecord.path).Nodup) (f : FileRecord) (hf : f ∈ files) :
    (toDescribe files).lookup f.path =
      if f.meta.hasDescription = true then none else some f.content := by
  induction files with
  | nil => cases hf
  | cons g rest ih =>
    simp only [List.map_cons, List.nodup_cons, List.mem_map] at h
    cases hf with
    | head =>
      unfold toDescribe
      by_cases hd : f.meta.hasDescription
      · rw [if_pos hd, hd]
        simp only [if_true]
        exact lookup_toDescribe_not_mem f.path rest
          (by
            intro hmem
            rcases List.mem_map.mp hmem with ⟨g', hg', he⟩
            exact h.1 ⟨g', hg', he⟩)
      · simp only [hd, if_false, List.lookup, beq_self_eq_true]
        simp [eq_false_of_ne_true (by simpa using hd)]
    | tail _ hmem =>
      have hnodup : (rest.map FileRecord.path).Nodup := h.2
      have hne : f.path ≠ g.path := by
        intro he
        exact h.1 ⟨f, hmem, he⟩
      unfold toDescribe
      by_cases hd : g.meta.hasDescription
      · simpa [hd] using ih hnodup hmem
      · have hb : (f.path == g.path) = false := by
          simp only [beq_eq_false_iff_ne, ne_eq]
          exact hne
        simp only [hd, if_false, List.lookup, hb]
        exact ih hnodup hmem

/-- C3: during describe_files, a file lacking a description whose content is
the empty string gets description "Empty file" and references [] written into
its metadata, with every other metadata key and its content intact, and zero
model calls are made for that file. -/
theorem describe_files_empty_sentinel (llm : String → String → FileDescription)
    (files : List FileRecord) (h : (files.map FileRecord.path).Nodup)
    (f : FileRecord) (hf : f ∈ files)
    (hd : f.meta.hasDescription = false) (hc : f.content = "") :
    describeOne llm (toDescribe files) f =
      ({ f with meta := { f.meta with
                          description := some "Empty file",
                          references := [] } }, 0) := by
  have hl := lookup_toDescribe files h f hf
  rw [hd] at hl
  simp only [Bool.false_eq_true, if_false] at hl
  unfold describeOne
  rw [hl, hc]
  simp [FileMeta.withDescription]

/-- Witness for C3: a single empty pending file app.py with one unrelated
metadata key gets exactly the sentinel metadata, keeping the other key. -/
theorem describe_files_empty_sentinel_witness :
    describeOne (fun _ _ => FileDescription.mk "s" [])
      (toDescribe [FileRecord.mk "app.py" "" (FileMeta.mk none [] [("owner", "x")])])
      (FileRecord.mk "app.py" "" (FileMeta.mk none [] [("owner", "x")])) =
      (FileRecord.mk "app.py" ""
        (FileMeta.mk (some "Empty file") [] [("owner", "x")]), 0) :=
  describe_files_empty_sentinel (fun _ _ => FileDescription.mk "s" [])
    [FileRecord.mk "app.py" "" (FileMeta.mk none [] [("owner", "x")])]
    (by simp) (FileRecord.mk "app.py" "" (FileMeta.mk none [] [("owner", "x")]))
    (by simp) (by decide) rfl

/-- C8: describe_files processes exactly the files lacking a description: a
file with a truthy description is returned untouched with zero model calls,
while a pending file with non-empty content triggers exactly one model call
and gets the parsed summary and reference list written into its metadata,
keeping its content and its other metadata keys. -/
theorem describe_files_pending_only (llm : String → String → FileDescription)
    (files : List FileRecord) (h : (files.map FileRecord.path).Nodup)
    (f : FileRecord) (hf : f ∈ files) :
    (f.meta.hasDescription = true →
      describeOne llm (toDescribe files) f = (f, 0)) ∧
    (f.meta.hasDescription = false → f.content ≠ "" →
      describeOne llm (toDescribe files) f =
        ({ f with meta := { f.meta with
             description := some (llm f.path f.content).summary,
             references := (llm f.path f.content).references } }, 1)) := by
  have hl := lookup_toDescribe files h f hf
  constructor
  · intro hd
    rw [hd] at hl
    simp only [if_true] at hl
    unfold describeOne
    rw [hl]
  · intro hd hc
    rw [hd] at hl
    simp only [Bool.false_eq_true, if_false] at hl
    unfold describeOne
    rw [hl]
    simp [hc, FileMeta.withDescription]

/-- Witness for C8: with one described file and one pending non-empty file,
the described file is untouched with zero calls and the pending file gets the
model's summary and references with one call. -/
theorem describe_files_pending_only_witness :
    (describeOne (fun _ _ => FileDescription.mk "summary of main" ["util.py"])
      (toDescribe
        [FileRecord.mk "done.py" "pass" (FileMeta.mk (some "old") ["a.py"] []),
         FileRecord.mk "main.py" "import util" (FileMeta.mk none [] [("k", "v")])])
      (FileRecord.mk "done.py" "pass" (FileMeta.mk (some "old") ["a.py"] [])) =
      (FileRecord.mk "done.py" "pass" (FileMeta.mk (some "old") ["a.py"] []), 0)) ∧
    (describeOne (fun _ _ => FileDescription.mk "summary of main" ["util.py"])
      (toDescribe
        [FileRecord.mk "done.py" "pass" (FileMeta.mk (some "old") ["a.py"] []),
         FileRecord.mk "main.py" "import util" (FileMeta.mk none [] [("k", "v")])])
      (FileRecord.mk "main.py" "import util" (FileMeta.mk none [] [("k", "v")])) =
      (FileRecord.mk "main.py" "import util"
        (FileMeta.mk (some "summary of main") ["util.py"] [("k", "v")]), 1)) :=
  ⟨(describe_files_pending_only (fun _ _ => FileDescription.mk "summary of main" ["util.py"])
      [FileRecord.mk "done.py" "pass" (FileMeta.mk (some "old") ["a.py"] []),
       FileRecord.mk "main.py" "import util" (FileMeta.mk none [] [("k", "v")])]
      (by simp) _ (by simp)).1 rfl,
   (describe_files_pending_only (fun _ _ => FileDescription.mk "summary of main" ["util.py"])
      [FileRecord.mk "done.py" "pass" (FileMeta.mk (some "old") ["a.py"] []),
       FileRecord.mk "main.py" "import util" (FileMeta.mk none [] [("k", "v")])]
      (by simp) _ (by simp)).2 rfl (by simp)⟩

/-- Per-dependency facts about one iteration of the dependency probe: the test
command runs exactly once, installed records whether the exit status was 0,
and the blocking prompt appears exactly when the command failed. -/
theorem checkOneSystemDep_spec (exit_code : String → Int) (d : SpecSystemDep) :
    (checkOneSystemDep exit_code d).2.filterMap commandOf = [d.test] ∧
    (checkOneSystemDep exit_code d).1 =
      { d with installed := some (exit_code d.test == 0) } ∧
    (checkOneSystemDep exit_code d).2.filterMap installPromptOf =
      (if exit_code d.test != 0 then [d.name] else []) := by
  unfold checkOneSystemDep
  by_cases hc : exit_code d.test = 0 <;>
    simp [hc, commandOf, installPromptOf, List.filterMap]

/-- C4: for every declared system dependency the architecture step executes
its test command exactly once (in declaration order), records
installed = (exit status = 0), surfaces a blocking prompt exactly for the
dependencies whose command exited non-zero, and Architect.run always completes
with a done response regardless of the outcomes. -/
theorem check_system_dependencies_probe (exit_code : String → Int)
    (deps : List SpecSystemDep) (ex : String → ExampleArch)
    (llmArch : Architecture) (spec : Specification) :
    ((check_system_dependencies exit_code deps).2.filterMap commandOf =
       deps.map SpecSystemDep.test) ∧
    ((check_system_dependencies exit_code deps).1 =
       deps.map (fun d => { d with installed := some (exit_code d.test == 0) })) ∧
    ((check_system_dependencies exit_code deps).2.filterMap installPromptOf =
       (deps.filter (fun d => exit_code d.test != 0)).map SpecSystemDep.name) ∧
    (Architect.run ex llmArch exit_code spec).response = ResponseType.done := by
  refine ⟨?_, ?_, ?_, ?_⟩
  · induction deps with
    | nil => rfl
    | cons d rest ih =>
      have h := checkOneSystemDep_spec exit_code d
      simp only [check_system_dependencies, List.filterMap_append, List.map_cons]
      rw [h.1, ih]
      rfl
  · induction deps with
    | nil => rfl
    | cons d rest ih =>
      have h := checkOneSystemDep_spec exit_code d
      simp only [check_system_dependencies, List.map_cons]
      rw [h.2.1, ih]
  · induction deps with
    | nil => rfl
    | cons d rest ih =>
      have h := checkOneSystemDep_spec exit_code d
      simp only [check_system_dependencies, List.filterMap_append, List.filter_cons]
      rw [h.2.2, ih]
      by_cases hc : exit_code d.test != 0 <;> simp [hc]
  · unfold Architect.run
    by_cases he : truthyStr spec.example_project <;> simp [he]

/-- The dependency probe makes no model calls. -/
theorem check_system_dependencies_no_llm (exit_code : String → Int)
    (deps : List SpecSystemDep) :
    llmCalls (check_system_dependencies exit_code deps).2 = 0 := by
  induction deps with
  | nil => rfl
  | cons d rest ih =>
    simp only [check_system_dependencies, llmCalls, List.filter_append,
      List.length_append]
    have h1 : (checkOneSystemDep exit_code d).2.filter isLlmCall = [] := by
      unfold checkOneSystemDep
      by_cases hc : exit_code d.test = 0 <;> simp [hc, isLlmCall]
    rw [h1]
    simpa [llmCalls] using ih

/-- The compatibility check makes no model calls. -/
theorem check_compatibility_no_llm (arch : Architecture) :
    llmCalls (check_compatibility arch).2 = 0 := by
  simp only [check_compatibility, warn_about_dependencies, llmCalls]
  split <;> split <;> simp [isLlmCall]

/-- C6: when the specification is marked as an example project, Architect.run
fills architecture, package dependencies, template and the (then probed)
system dependencies purely by lookup in the predefined bundle, with zero model
invocations; the model is invoked, exactly once, only in the novel-project
path. -/
theorem architect_example_lookup (ex : String → ExampleArch)
    (llmArch : Architecture) (exit_code : String → Int)
    (spec : Specification) (name : String) :
    (spec.example_project = some name → name ≠ "" →
      (llmCalls (Architect.run ex llmArch exit_code spec).events = 0 ∧
       (Architect.run ex llmArch exit_code spec).spec.architecture =
         (ex name).architecture ∧
       (Architect.run ex llmArch exit_code spec).spec.package_dependencies =
         (ex name).package_dependencies ∧
       (Architect.run ex llmArch exit_code spec).spec.template =
         (ex name).template ∧
       (Architect.run ex llmArch exit_code spec).spec.system_dependencies =
         (check_system_dependencies exit_code (ex name).system_dependencies).1)) ∧
    (truthyStr spec.example_project = false →
      llmCalls (Architect.run ex llmArch exit_code spec).events = 1) := by
  constructor
  · intro he hne
    have ht : truthyStr spec.example_project = true := by
      rw [he]
      simpa [truthyStr] using hne
    unfold Architect.run
    rw [ht]
    simp only [if_true, he, Option.getD_some]
    refine ⟨?_, rfl, rfl, rfl, rfl⟩
    have := check_system_dependencies_no_llm exit_code
      (prepare_example_project ex name spec).system_dependencies
    simpa [llmCalls, isLlmCall, prepare_example_project] using this
  · intro hf
    unfold Architect.run
    rw [hf]
    simp only [Bool.false_eq_true, if_false]
    have h1 := check_compatibility_no_llm llmArch
    have h2 := check_system_dependencies_no_llm exit_code
      (plan_architecture llmArch spec).1.system_dependencies
    simp only [llmCalls, plan_architecture] at *
    simp [isLlmCall, List.filter_append, h1, h2, List.length_eq_zero.mp h1,
      List.length_eq_zero.mp h2]

/-- Concrete example-bundle lookup used by the C6 witness. -/
def exW : String → ExampleArch := fun _ =>
  ExampleArch.mk "example arch" [] [] none

/-- Concrete model response used by the C6 witness. -/
def llmW : Architecture := Architecture.mk "novel arch" [] [] none

/-- Concrete exit-code oracle used by the C6 witness. -/
def exitW : String → Int := fun _ => 0

/-- Concrete example-project specification used by the C6 witness. -/
def specExW : Specification := Specification.mk (some "demo") "" [] [] none

/-- Concrete novel-project specification used by the C6 witness. -/
def specNovelW : Specification := Specification.mk none "" [] [] none

/-- Witness for C6: a concrete example project is filled from the bundle with
zero model calls, and a concrete novel project makes exactly one model
call. -/
theorem architect_example_lookup_witness :
    (llmCalls (Architect.run exW llmW exitW specExW).events = 0 ∧
     (Architect.run exW llmW exitW specExW).spec.architecture =
       (exW "demo").architecture ∧
     (Architect.run exW llmW exitW specExW).spec.package_dependencies =
       (exW "demo").package_dependencies ∧
     (Architect.run exW llmW exitW specExW).spec.template = (exW "demo").template ∧
     (Architect.run exW llmW exitW specExW).spec.system_dependencies =
       (check_system_dependencies exitW (exW "demo").system_dependencies).1) ∧
    llmCalls (Architect.run exW llmW exitW specNovelW).events = 1 :=
  ⟨(architect_example_lookup exW llmW exitW specExW "demo").1 rfl (by decide),
   (architect_example_lookup exW llmW exitW specNovelW "demo").2 rfl⟩

/-- A list has a satisfying element exactly when filtering by the predicate
leaves something. -/
theorem any_eq_false_iff_filter_eq_nil {α : Type} (p : α → Bool) (l : List α) :
    (l.any p = false) ↔ l.filter p = [] := by
  induction l with
  | nil => simp
  | cons a rest ih => by_cases h : p a <;> simp [h, ih]

/-- Membership in the system-dependency denylist, spelled out. -/
theorem contains_warn_system_deps (s : String) :
    WARN_SYSTEM_DEPS.contains s =
      (s == "docker" || s == "kubernetes" || s == "microservices") := by
  cases hb1 : s == "docker" <;> cases hb2 : s == "kubernetes" <;>
    cases hb3 : s == "microservices" <;>
    simp [WARN_SYSTEM_DEPS, List.contains, List.elem, hb1, hb2, hb3]

/-- Membership in the framework denylist, spelled out. -/
theorem contains_warn_frameworks (s : String) :
    WARN_FRAMEWORKS.contains s =
      (s == "next.js" || s == "vue" || s == "vue.js" || s == "svelte" ||
        s == "angular") := by
  cases hb1 : s == "next.js" <;> cases hb2 : s == "vue" <;>
    cases hb3 : s == "vue.js" <;> cases hb4 : s == "svelte" <;>
    cases hb5 : s == "angular" <;>
    simp [WARN_FRAMEWORKS, List.contains, List.elem, hb1, hb2, hb3, hb4, hb5]

/-- The exact trace of events produced by check_compatibility, as a function
of whether each category has a denylisted match. -/
theorem check_compatibility_events (arch : Architecture) :
    (check_compatibility arch).2 =
      (if ((arch.system_dependencies.filter
            (fun d => WARN_SYSTEM_DEPS.contains (lower d.name))).map
              SystemDependency.name).isEmpty then []
       else [AEvent.warnPrompt
              ((arch.system_dependencies.filter
                (fun d => WARN_SYSTEM_DEPS.contains (lower d.name))).map
                  SystemDependency.name) "system dependencies" none]) ++
      (if ((arch.package_dependencies.filter
            (fun d => WARN_FRAMEWORKS.contains (lower d.name))).map
              PackageDependency.name).isEmpty then []
       else [AEvent.warnPrompt
              ((arch.package_dependencies.filter
                (fun d => WARN_FRAMEWORKS.contains (lower d.name))).map
                  PackageDependency.name) "frameworks"
              (some WARN_FRAMEWORKS_URL)]) := rfl

/-- A frameworks warning is not a system-dependencies warning. -/
theorem isSystemWarn_frameworks (ns : List String) (u : Option String) :
    isSystemWarn (AEvent.warnPrompt ns "frameworks" u) = false := rfl

/-- A system-dependencies warning is recognized as such. -/
theorem isSystemWarn_system (ns : List String) (u : Option String) :
    isSystemWarn (AEvent.warnPrompt ns "system dependencies" u) = true := rfl

/-- A system-dependencies warning is not a frameworks warning. -/
theorem isFrameworkWarn_system (ns : List String) (u : Option String) :
    isFrameworkWarn (AEvent.warnPrompt ns "system dependencies" u) = false := rfl

/-- A frameworks warning is recognized as such. -/
theorem isFrameworkWarn_frameworks (ns : List String) (u : Option String) :
    isFrameworkWarn (AEvent.warnPrompt ns "frameworks" u) = true := rfl

/-- C10: the denylist match is case-insensitive and exact: the advisory
warning for system dependencies is surfaced iff some declared system
dependency's lowercased name is exactly docker, kubernetes or microservices,
the framework warning iff some package dependency's lowercased name is exactly
next.js, vue, vue.js, svelte or angular, and when no dependency matches the
compatibility check surfaces no prompt at all. -/
theorem check_compatibility_denylist (arch : Architecture) :
    ((check_compatibility arch).2.any isSystemWarn =
      arch.system_dependencies.any (fun d =>
        (lower d.name) == "docker" || (lower d.name) == "kubernetes" ||
          (lower d.name) == "microservices")) ∧
    ((check_compatibility arch).2.any isFrameworkWarn =
      arch.package_dependencies.any (fun d =>
        (lower d.name) == "next.js" || (lower d.name) == "vue" ||
          (lower d.name) == "vue.js" || (lower d.name) == "svelte" ||
          (lower d.name) == "angular")) ∧
    ((arch.system_dependencies.any
        (fun d => WARN_SYSTEM_DEPS.contains (lower d.name)) = false ∧
      arch.package_dependencies.any
        (fun d => WARN_FRAMEWORKS.contains (lower d.name)) = false) →
      (check_compatibility arch).2 = []) := by
  have es : (arch.system_dependencies.any (fun d =>
      (lower d.name) == "docker" || (lower d.name) == "kubernetes" ||
        (lower d.name) == "microservices")) =
      arch.system_dependencies.any
        (fun d => WARN_SYSTEM_DEPS.contains (lower d.name)) :=
    congrArg arch.system_dependencies.any
      (funext fun d => (contains_warn_system_deps (lower d.name)).symm)
  have ep : (arch.package_dependencies.any (fun d =>
      (lower d.name) == "next.js" || (lower d.name) == "vue" ||
        (lower d.name) == "vue.js" || (lower d.name) == "svelte" ||
        (lower d.name) == "angular")) =
      arch.package_dependencies.any
        (fun d => WARN_FRAMEWORKS.contains (lower d.name)) :=
    congrArg arch.package_dependencies.any
      (funext fun d => (contains_warn_frameworks (lower d.name)).symm)
  have hS := any_eq_false_iff_filter_eq_nil
    (fun d => WARN_SYSTEM_DEPS.contains (lower d.name)) arch.system_dependencies
  have hP := any_eq_false_iff_filter_eq_nil
    (fun d => WARN_FRAMEWORKS.contains (lower d.name)) arch.package_dependencies
  rw [es, ep]
  by_cases h1 : ((arch.system_dependencies.filter
      (fun d => WARN_SYSTEM_DEPS.contains (lower d.name))).map
        SystemDependency.name).isEmpty = true <;>
  by_cases h2 : ((arch.package_dependencies.filter
      (fun d => WARN_FRAMEWORKS.contains (lower d.name))).map
        PackageDependency.name).isEmpty = true
  · have haS := hS.mpr (List.map_eq_nil_iff.mp (List.isEmpty_iff.mp h1))
    have haP := hP.mpr (List.map_eq_nil_iff.mp (List.isEmpty_iff.mp h2))
    have ht : (check_compatibility arch).2 = [] := by
      rw [check_compatibility_events, if_pos h1, if_pos h2]
      rfl
    rw [ht, haS, haP]
    exact ⟨rfl, rfl, fun _ => rfl⟩
  · have haS := hS.mpr (List.map_eq_nil_iff.mp (List.isEmpty_iff.mp h1))
    have haP : (arch.package_dependencies.any
        (fun d => WARN_FRAMEWORKS.contains (lower d.name))) = true := by
      cases hb : arch.package_dependencies.any
          (fun d => WARN_FRAMEWORKS.contains (lower d.name))
      · exact absurd (by rw [hP.mp hb]; rfl) h2
      · rfl
    have ht : (check_compatibility arch).2 =
        [AEvent.warnPrompt ((arch.package_dependencies.filter
          (fun d => WARN_FRAMEWORKS.contains (lower d.name))).map
            PackageDependency.name) "frameworks" (some WARN_FRAMEWORKS_URL)] := by
      rw [check_compatibility_events, if_pos h1, if_neg h2]
      rfl
    refine ⟨?_, ?_, ?_⟩
    · rw [ht, haS]
      rfl
    · rw [ht, haP]
      rfl
    · intro hcontra
      rw [haP] at hcontra
      exact Bool.noConfusion hcontra.2
  · have haP := hP.mpr (List.map_eq_nil_iff.mp (List.isEmpty_iff.mp h2))
    have haS : (arch.system_dependencies.any
        (fun d => WARN_SYSTEM_DEPS.contains (lower d.name))) = true := by
      cases hb : arch.system_dependencies.any
          (fun d => WARN_SYSTEM_DEPS.contains (lower d.name))
      · exact absurd (by rw [hS.mp hb]; rfl) h1
      · rfl
    have ht : (check_compatibility arch).2 =
        [AEvent.warnPrompt ((arch.system_dependencies.filter
          (fun d => WARN_SYSTEM_DEPS.contains (lower d.name))).map
            SystemDependency.name) "system dependencies" none] := by
      rw [check_compatibility_events, if_neg h1, if_pos h2]
      rfl
    refine ⟨?_, ?_, ?_⟩
    · rw [ht, haS]
      rfl
    · rw [ht, haP]
      rfl
    · intro hcontra
      rw [haS] at hcontra
      exact Bool.noConfusion hcontra.1
  · have haS : (arch.system_dependencies.any
        (fun d => WARN_SYSTEM_DEPS.contains (lower d.name))) = true := by
      cases hb : arch.system_dependencies.any
          (fun d => WARN_SYSTEM_DEPS.contains (lower d.name))
      · exact absurd (by rw [hS.mp hb]; rfl) h1
      · rfl
    have haP : (arch.package_dependencies.any
        (fun d => WARN_FRAMEWORKS.contains (lower d.name))) = true := by
      cases hb : arch.package_dependencies.any
          (fun d => WARN_FRAMEWORKS.contains (lower d.name))
      · exact absurd (by rw [hP.mp hb]; rfl) h2
      · rfl
    have ht : (check_compatibility arch).2 =
        [AEvent.warnPrompt ((arch.system_dependencies.filter
          (fun d => WARN_SYSTEM_DEPS.contains (lower d.name))).map
            SystemDependency.name) "system dependencies" none,
         AEvent.warnPrompt ((arch.package_dependencies.filter
          (fun d => WARN_FRAMEWORKS.contains (lower d.name))).map
            PackageDependency.name) "frameworks" (some WARN_FRAMEWORKS_URL)] := by
      rw [check_compatibility_events, if_neg h1, if_neg h2]
      rfl
    refine ⟨?_, ?_, ?_⟩
    · rw [ht, haS]
      rfl
    · rw [ht, haP]
      rfl
    · intro hcontra
      rw [haS] at hcontra
      exact Bool.noConfusion hcontra.1

/-- Witness for C10: a project declaring only Node.js and express (no
denylisted name) gets no warning prompt at all. -/
theorem check_compatibility_denylist_witness :
    (check_compatibility (Architecture.mk "webapp"
      [SystemDependency.mk "Node.js" "JS runtime" "node --version" true]
      [PackageDependency.mk "express" "web framework"] none)).2 = [] :=
  (check_compatibility_denylist (Architecture.mk "webapp"
      [SystemDependency.mk "Node.js" "JS runtime" "node --version" true]
      [PackageDependency.mk "express" "web framework"] none)).2.2
    ⟨by decide, by decide⟩

/-- The dependency probe surfaces no compatibility warning prompts. -/
theorem check_system_dependencies_no_warn (exit_code : String → Int)
    (deps : List SpecSystemDep) :
    (check_system_dependencies exit_code deps).2.any isWarnPrompt = false := by
  induction deps with
  | nil => rfl
  | cons d rest ih =>
    simp only [check_system_dependencies, List.any_append]
    have h1 : (checkOneSystemDep exit_code d).2.any isWarnPrompt = false := by
      unfold checkOneSystemDep
      by_cases hc : exit_code d.test = 0 <;> simp [hc, isWarnPrompt]
    rw [h1, ih]
    rfl

/-- The compatibility check surfaces a warning prompt exactly when some
declared dependency matches one of the denylists. -/
theorem check_compatibility_any_warn (arch : Architecture) :
    (check_compatibility arch).2.any isWarnPrompt =
      (arch.system_dependencies.any
        (fun d => WARN_SYSTEM_DEPS.contains (lower d.name)) ||
       arch.package_dependencies.any
        (fun d => WARN_FRAMEWORKS.contains (lower d.name))) := by
  have hS := any_eq_false_iff_filter_eq_nil
    (fun d => WARN_SYSTEM_DEPS.contains (lower d.name)) arch.system_dependencies
  have hP := any_eq_false_iff_filter_eq_nil
    (fun d => WARN_FRAMEWORKS.contains (lower d.name)) arch.package_dependencies
  by_cases h1 : ((arch.system_dependencies.filter
      (fun d => WARN_SYSTEM_DEPS.contains (lower d.name))).map
        SystemDependency.name).isEmpty = true <;>
  by_cases h2 : ((arch.package_dependencies.filter
      (fun d => WARN_FRAMEWORKS.contains (lower d.name))).map
        PackageDependency.name).isEmpty = true
  · rw [check_compatibility_events, if_pos h1, if_pos h2,
      hS.mpr (List.map_eq_nil_iff.mp (List.isEmpty_iff.mp h1)),
      hP.mpr (List.map_eq_nil_iff.mp (List.isEmpty_iff.mp h2))]
    rfl
  · have haP : (arch.package_dependencies.any
        (fun d => WARN_FRAMEWORKS.contains (lower d.name))) = true := by
      cases hb : arch.package_dependencies.any
          (fun d => WARN_FRAMEWORKS.contains (lower d.name))
      · exact absurd (by rw [hP.mp hb]; rfl) h2
      · rfl
    rw [check_compatibility_events, if_pos h1, if_neg h2,
      hS.mpr (List.map_eq_nil_iff.mp (List.isEmpty_iff.mp h1)), haP]
    rfl
  · have haS : (arch.system_dependencies.any
        (fun d => WARN_SYSTEM_DEPS.contains (lower d.name))) = true := by
      cases hb : arch.system_dependencies.any
          (fun d => WARN_SYSTEM_DEPS.contains (lower d.name))
      · exact absurd (by rw [hS.mp hb]; rfl) h1
      · rfl
    rw [check_compatibility_events, if_neg h1, if_pos h2, haS]
    rfl
  · have haS : (arch.system_dependencies.any
        (fun d => WARN_SYSTEM_DEPS.contains (lower d.name))) = true := by
      cases hb : arch.system_dependencies.any
          (fun d => WARN_SYSTEM_DEPS.contains (lower d.name))
      · exact absurd (by rw [hS.mp hb]; rfl) h1
      · rfl
    rw [check_compatibility_events, if_neg h1, if_neg h2, haS]
    rfl

/-- In the novel-project path, the exact event trace of Architect.run. -/
theorem architect_run_novel_events (ex : String → ExampleArch)
    (llmArch : Architecture) (exit_code : String → Int)
    (spec : Specification) (h : truthyStr spec.example_project = false) :
    (Architect.run ex llmArch exit_code spec).events =
      AEvent.projectStage ::
        ([AEvent.sendMessage "Planning project architecture ...",
          AEvent.llmCall] ++ (check_compatibility llmArch).2 ++
          (check_system_dependencies exit_code
            (plan_architecture llmArch spec).1.system_dependencies).2) := by
  unfold Architect.run
  rw [h]
  rfl

/-- The example-project specification for the C7 counterexample. -/
def specC7 : Specification :=
  Specification.mk (some "docker_demo") "" [] [] none

/-- The predefined bundle for the C7 counterexample: it declares the
denylisted system dependency Docker. -/
def exLookupC7 : String → ExampleArch := fun _ =>
  ExampleArch.mk "Dockerized app"
    [SpecSystemDep.mk "Docker" "Container runtime" "docker --version" true none]
    [] none

/-- An arbitrary model response (never used on the example path). -/
def archC7 : Architecture := Architecture.mk "" [] [] none

/-- Exit-code oracle for the C7 counterexample: every command succeeds. -/
def exitC7 : String → Int := fun _ => 0

/-- C7 counterexample: for an example project whose predefined bundle declares
the denylisted system dependency Docker, Architect.run surfaces no advisory
warning prompt at all, although a declared system dependency matches the
denylist: prepare_example_project never invokes check_compatibility. -/
theorem architect_example_skips_compat :
    ((Architect.run exLookupC7 archC7 exitC7 specC7).spec.system_dependencies.any
        (fun d => WARN_SYSTEM_DEPS.contains (lower d.name)) = true) ∧
    ((Architect.run exLookupC7 archC7 exitC7 specC7).events.any isWarnPrompt
        = false) := by
  exact ⟨by decide, by decide⟩

/-- C7 amended: in the novel-project path (no example project) the
architecture step cross-references the model-declared dependencies against the
denylists: check_compatibility always returns success, Architect.run still
completes with done, an advisory warning prompt appears in the run's trace
exactly when some declared dependency matches a denylist, every matching
system dependency's name is listed in a surfaced system-dependencies warning
prompt, and every matching package dependency's name is listed in a surfaced
frameworks warning prompt. In the example-project path the compatibility
check is skipped (see the counterexample). -/
theorem check_compatibility_advisory (arch : Architecture)
    (ex : String → ExampleArch) (exit_code : String → Int)
    (spec : Specification) (h : truthyStr spec.example_project = false) :
    (check_compatibility arch).1 = true ∧
    (Architect.run ex arch exit_code spec).response = ResponseType.done ∧
    ((Architect.run ex arch exit_code spec).events.any isWarnPrompt =
      (arch.system_dependencies.any
        (fun d => WARN_SYSTEM_DEPS.contains (lower d.name)) ||
       arch.package_dependencies.any
        (fun d => WARN_FRAMEWORKS.contains (lower d.name)))) ∧
    (∀ d ∈ arch.system_dependencies,
      WARN_SYSTEM_DEPS.contains (lower d.name) = true →
        AEvent.warnPrompt ((arch.system_dependencies.filter
            (fun x => WARN_SYSTEM_DEPS.contains (lower x.name))).map
              SystemDependency.name) "system dependencies" none ∈
            (Architect.run ex arch exit_code spec).events ∧
        d.name ∈ (arch.system_dependencies.filter
            (fun x => WARN_SYSTEM_DEPS.contains (lower x.name))).map
              SystemDependency.name) ∧
    (∀ d ∈ arch.package_dependencies,
      WARN_FRAMEWORKS.contains (lower d.name) = true →
        AEvent.warnPrompt ((arch.package_dependencies.filter
            (fun x => WARN_FRAMEWORKS.contains (lower x.name))).map
              PackageDependency.name) "frameworks" (some WARN_FRAMEWORKS_URL) ∈
            (Architect.run ex arch exit_code spec).events ∧
        d.name ∈ (arch.package_dependencies.filter
            (fun x => WARN_FRAMEWORKS.contains (lower x.name))).map
              PackageDependency.name) := by
  refine ⟨rfl, ?_, ?_, ?_, ?_⟩
  · unfold Architect.run
    rw [h]
    rfl
  · rw [architect_run_novel_events ex arch exit_code spec h]
    simp [isWarnPrompt, List.any_append, check_system_dependencies_no_warn,
      check_compatibility_any_warn]
  · intro d hd hmatch
    have hmem : d ∈ arch.system_dependencies.filter
        (fun x => WARN_SYSTEM_DEPS.contains (lower x.name)) :=
      List.mem_filter.mpr ⟨hd, hmatch⟩
    have h1 : ¬ ((arch.system_dependencies.filter
        (fun x => WARN_SYSTEM_DEPS.contains (lower x.name))).map
          SystemDependency.name).isEmpty = true := by
      intro he
      have hnil := List.map_eq_nil_iff.mp (List.isEmpty_iff.mp he)
      rw [hnil] at hmem
      cases hmem
    have hev : AEvent.warnPrompt ((arch.system_dependencies.filter
        (fun x => WARN_SYSTEM_DEPS.contains (lower x.name))).map
          SystemDependency.name) "system dependencies" none ∈
        (check_compatibility arch).2 := by
      rw [check_compatibility_events]
      by_cases h2 : ((arch.package_dependencies.filter
          (fun x => WARN_FRAMEWORKS.contains (lower x.name))).map
            PackageDependency.name).isEmpty = true
      · rw [if_neg h1, if_pos h2]
        simp
      · rw [if_neg h1, if_neg h2]
        simp
    constructor
    · rw [architect_run_novel_events ex arch exit_code spec h]
      simp only [List.mem_cons, List.mem_append]
      exact Or.inr (Or.inl (Or.inr hev))
    · exact List.mem_map_of_mem SystemDependency.name hmem
  · intro d hd hmatch
    have hmem : d ∈ arch.package_dependencies.filter
        (fun x => WARN_FRAMEWORKS.contains (lower x.name)) :=
      List.mem_filter.mpr ⟨hd, hmatch⟩
    have h2 : ¬ ((arch.package_dependencies.filter
        (fun x => WARN_FRAMEWORKS.contains (lower x.name))).map
          PackageDependency.name).isEmpty = true := by
      intro he
      have hnil := List.map_eq_nil_iff.mp (List.isEmpty_iff.mp he)
      rw [hnil] at hmem
      cases hmem
    have hev : AEvent.warnPrompt ((arch.package_dependencies.filter
        (fun x => WARN_FRAMEWORKS.contains (lower x.name))).map
          PackageDependency.name) "frameworks" (some WARN_FRAMEWORKS_URL) ∈
        (check_compatibility arch).2 := by
      rw [check_compatibility_events]
      by_cases h1 : ((arch.system_dependencies.filter
          (fun x => WARN_SYSTEM_DEPS.contains (lower x.name))).map
            SystemDependency.name).isEmpty = true
      · rw [if_pos h1, if_neg h2]
        simp
      · rw [if_neg h1, if_neg h2]
        simp
    constructor
    · rw [architect_run_novel_events ex arch exit_code spec h]
      simp only [List.mem_cons, List.mem_append]
      exact Or.inr (Or.inl (Or.inr hev))
    · exact List.mem_map_of_mem PackageDependency.name hmem

/-- Model-declared architecture with a denylisted system dependency and a
denylisted framework, for the C7 witness. -/
def archC7w : Architecture :=
  Architecture.mk "containerized"
    [SystemDependency.mk "Docker" "Container runtime" "docker --version" true]
    [PackageDependency.mk "Vue" "frontend framework"] none

/-- Witness for C7's amended theorem: on a novel project declaring Docker and
Vue, a system-dependencies warning prompt naming Docker and a frameworks
warning prompt naming Vue both appear in the run trace. -/
theorem check_compatibility_advisory_witness :
    (AEvent.warnPrompt ["Docker"] "system dependencies" none ∈
        (Architect.run (fun _ => ExampleArch.mk "" [] [] none) archC7w
          (fun _ => 0) (Specification.mk none "" [] [] none)).events ∧
      "Docker" ∈ ["Docker"]) ∧
    (AEvent.warnPrompt ["Vue"] "frameworks" (some WARN_FRAMEWORKS_URL) ∈
        (Architect.run (fun _ => ExampleArch.mk "" [] [] none) archC7w
          (fun _ => 0) (Specification.mk none "" [] [] none)).events ∧
      "Vue" ∈ ["Vue"]) :=
  ⟨(check_compatibility_advisory archC7w (fun _ => ExampleArch.mk "" [] [] none)
      (fun _ => 0) (Specification.mk none "" [] [] none) rfl).2.2.2.1
    (SystemDependency.mk "Docker" "Container runtime" "docker --version" true)
    (by decide) (by decide),
   (check_compatibility_advisory archC7w (fun _ => ExampleArch.mk "" [] [] none)
      (fun _ => 0) (Specification.mk none "" [] [] none) rfl).2.2.2.2
    (PackageDependency.mk "Vue" "frontend framework")
    (by decide) (by decide)⟩
